import Mathlib

/-!
Shallow embedding of `src/atlas_densities/app/mtype_densities.py`.

Density values are modelled as rationals; a `VoxelData` (voxcell) is its raw
value list together with the shape, voxel-dimension and offset metadata that
the module inspects.  File loading, parsing and the click option layer are
external collaborators per the specification and are not modelled: each
command is embedded as a function from the already-loaded inputs to either an
`AtlasDensitiesError` or a record of what it hands to the allocation core
(and, for `create_from_composition`, the list of output files it writes).
Errors are structured values carrying the data interpolated into the Python
error messages.
-/

namespace MtypeDensities

/-- The part of a voxcell `VoxelData` that `mtype_densities.py` inspects:
the raw values (flattened), and the shape, voxel-dimension and offset
metadata. -/
structure VoxelData where
  raw : List ℚ
  shape : List ℕ
  voxel_dimensions : List ℚ
  offset : List ℚ
  deriving DecidableEq, Repr

/-- The `AtlasDensitiesError` values this module can raise, as structured
data: each constructor carries the data interpolated into the corresponding
Python message. -/
inductive AtlasDensitiesError where
  /-- Line 168: no neuron density files were provided. -/
  | noNeuronDensityFiles : AtlasDensitiesError
  /-- Line 422: column name mismatch (carries the columns found). -/
  | columnMismatch (found : List String) : AtlasDensitiesError
  /-- Line 429: sClass column values differ from expected (carries the values found). -/
  | sclassMismatch (found : Finset String) : AtlasDensitiesError
  /-- Line 482: taxonomy and composition mtypes are inconsistent; carries the
  mtypes in the taxonomy but not the composition and those in the
  composition but not the taxonomy, as listed in the message. -/
  | mtypeIncongruency (inTaxonomyOnly inCompositionOnly : Finset String) : AtlasDensitiesError
  /-- Line 462: density with zeros everywhere encountered. -/
  | zerosEverywhere : AtlasDensitiesError
  /-- Line 465: density with negative values encountered. -/
  | negativeDensity : AtlasDensitiesError
  /-- Line 471: negative density values encountered in composition. -/
  | negativeComposition : AtlasDensitiesError
  /-- Line 198: keys missing from the configuration file (carries the missing keys). -/
  | missingConfigKeys (missing : Finset String) : AtlasDensitiesError
  /-- Raised by `assert_meta_properties` / `assert_properties` (atlas_commons)
  when jointly used volumetric fields disagree on shape, voxel dimensions or
  offset. -/
  | metaPropertiesMismatch : AtlasDensitiesError
  deriving DecidableEq

/-- Default absolute tolerance of `np.allclose`, 1e-08. -/
def atol : ℚ := mkRat 1 100000000

/-- Absolute value on ℚ, written with kernel-reducible operations. -/
def rabs (x : ℚ) : ℚ :=
  if x < 0 then -x else x

theorem rabs_eq_abs (x : ℚ) : rabs x = |x| := by
  unfold rabs
  rcases lt_or_le x 0 with h | h
  · rw [if_pos h, abs_of_neg h]
  · rw [if_neg (not_lt.mpr h), abs_of_nonneg h]

theorem atol_eq : atol = 1 / 100000000 := by
  unfold atol
  norm_num [mkRat, Rat.normalize]

/-- `np.allclose(xs, 0.0)` with the default tolerances: every element `x`
satisfies `|x - 0| <= atol + rtol * |0|`; against the scalar `0` the
relative term `rtol * |0|` vanishes and `|x - 0| = |x|`, leaving
`|x| <= atol`. -/
def allclose_zero (xs : List ℚ) : Bool :=
  xs.all (fun x => decide (rabs x ≤ atol))

/-- `_validate_density` (lines 459-465): raises if the density is zero
everywhere (up to `np.allclose` tolerance), then if any value is negative. -/
def validate_density (density : VoxelData) : Except AtlasDensitiesError Unit :=
  if allclose_zero density.raw then
    .error .zerosEverywhere
  else if density.raw.any (fun x => decide (x < 0)) then
    .error .negativeDensity
  else
    .ok ()

/-- The columns of the mtype taxonomy dataframe that
`_validate_mtype_taxonomy` and `_check_taxonomy_composition_congruency`
inspect: the column-label list and the `sClass` and `mtype` column values. -/
structure MtypeTaxonomy where
  columns : List String
  sClass : List String
  mtype : List String
  deriving DecidableEq

/-- The columns of the mtype composition dataframe built by
`_load_neuronal_mtype_composition` (`density`, `layer`, `mtype`), of which
the validators inspect `density` and `mtype`. -/
structure MtypeComposition where
  density : List ℚ
  layer : List String
  mtype : List String
  deriving DecidableEq

/-- `_validate_mtype_taxonomy` (lines 413-432): raises unless the taxonomy
columns are exactly (as a set) `mtype`, `mClass`, `sClass`, and then raises
unless the set of `sClass` values is exactly `EXC`, `INH`. -/
def validate_mtype_taxonomy (taxonomy : MtypeTaxonomy) :
    Except AtlasDensitiesError Unit :=
  if ({"mtype", "mClass", "sClass"} : Finset String) ≠ taxonomy.columns.toFinset then
    .error (.columnMismatch taxonomy.columns)
  else if ({"EXC", "INH"} : Finset String) ≠ taxonomy.sClass.toFinset then
    .error (.sclassMismatch taxonomy.sClass.toFinset)
  else
    .ok ()

/-- `_validate_neuronal_mtype_composition` (lines 468-471): raises if any
composition density value is negative. -/
def validate_neuronal_mtype_composition (composition : MtypeComposition) :
    Except AtlasDensitiesError Unit :=
  if composition.density.any (fun x => decide (x < 0)) then
    .error .negativeComposition
  else
    .ok ()

/-- `_check_taxonomy_composition_congruency` (lines 474-488): raises unless
the taxonomy and the composition have the same set of mtypes; the error
carries the mtypes present in only one of the two tables. -/
def check_taxonomy_composition_congruency (taxonomy : MtypeTaxonomy)
    (composition : MtypeComposition) : Except AtlasDensitiesError Unit :=
  let taxonomy_mtypes := taxonomy.mtype.toFinset
  let composition_mtypes := composition.mtype.toFinset
  if ¬ taxonomy_mtypes = composition_mtypes then
    .error (.mtypeIncongruency (taxonomy_mtypes \ composition_mtypes)
      (composition_mtypes \ taxonomy_mtypes))
  else
    .ok ()

/-- `_check_config_sanity` (lines 186-200): the configuration dict is
modelled by its key set, the only part the function inspects.  Raises,
naming the missing keys, when the set difference
`probabilityMapPath, molecularTypeDensityPaths minus keys` is non-empty. -/
def check_config_sanity (config_keys : Finset String) :
    Except AtlasDensitiesError Unit :=
  let diff := ({"probabilityMapPath", "molecularTypeDensityPaths"} : Finset String) \ config_keys
  if diff ≠ ∅ then
    .error (.missingConfigKeys diff)
  else
    .ok ()

/-- Modelled from the spec: `assert_meta_properties` is imported from
`atlas_commons.app_utils`, whose code is not part of this repository; per
the spec, the core requires that every field involved in one computation
share identical shape, voxel size, and offset, and a precondition check
fails fatally otherwise. -/
def assert_meta_properties : List VoxelData → Except AtlasDensitiesError Unit
  | [] => .ok ()
  | v :: rest =>
    if rest.all (fun w => decide (w.shape = v.shape ∧
        w.voxel_dimensions = v.voxel_dimensions ∧ w.offset = v.offset)) then
      .ok ()
    else
      .error .metaPropertiesMismatch

/-- Modelled from the spec: `assert_properties` is imported from
`atlas_commons.app_utils`, whose code is not part of this repository; the
call site (line 388-389) comments that it checks conforming shape, voxel
dimensions and offset, the same precondition as `assert_meta_properties`. -/
def assert_properties (voxeldata : List VoxelData) :
    Except AtlasDensitiesError Unit :=
  assert_meta_properties voxeldata

/-- Modelled from the spec: `VoxelData.with_data` is provided by voxcell,
whose code is not part of this repository; it returns a new `VoxelData`
holding the given raw values under the metadata (voxel dimensions, offset)
of the original, which the spec describes as the output fields sharing the
affine metadata of the inputs. -/
def VoxelData.with_data (v : VoxelData) (raw : List ℚ) : VoxelData :=
  { v with raw := raw }

/-- The loaded configuration of `create_from_profile`, restricted to the two
optional keys the command branches on: `some d` models the key being present
with `d` the `VoxelData` loaded from its path, `none` models an absent key.
The required keys (`mtypeToProfileMapPath`, `layerSlicesPath`,
`densityProfilesDirPath`) only feed the profile-collection loader, an
external collaborator, and are not modelled. -/
structure ProfileConfig where
  inhibitoryNeuronDensity : Option VoxelData
  excitatoryNeuronDensity : Option VoxelData
  deriving DecidableEq

/-- The arguments `create_from_profile` hands to the allocation core
`density_profile_collection.create_mtype_densities` (lines 175-183), as far
as they are modelled. -/
structure ProfileCoreCall where
  annot : VoxelData
  direction_vectors : VoxelData
  excitatory : Option VoxelData
  inhibitory : Option VoxelData
  deriving DecidableEq

/-- The `voxeldata` list of `create_from_profile` (lines 155-165): the
annotation, the direction vectors, then the inhibitory density if its key is
present, then the excitatory density if its key is present. -/
def profile_voxeldata (annot direction_vectors : VoxelData)
    (config : ProfileConfig) : List VoxelData :=
  [annot, direction_vectors]
    ++ (match config.inhibitoryNeuronDensity with
        | some d => [d]
        | none => [])
    ++ (match config.excitatoryNeuronDensity with
        | some d => [d]
        | none => [])

/-- `create_from_profile` (lines 106-183) after loading: line 167 of the
source tests `inhibitory_neuron_density is None` twice (the conjunction is
kept verbatim here), raises the no-neuron-density error when the test holds,
then checks metadata consistency over `voxeldata` and hands the fields to
the allocation core. -/
def create_from_profile (annot direction_vectors : VoxelData)
    (config : ProfileConfig) : Except AtlasDensitiesError ProfileCoreCall :=
  let inhibitory_neuron_density := config.inhibitoryNeuronDensity
  let excitatory_neuron_density := config.excitatoryNeuronDensity
  let voxeldata := profile_voxeldata annot direction_vectors config
  if inhibitory_neuron_density = none ∧ inhibitory_neuron_density = none then
    .error .noNeuronDensityFiles
  else
    match assert_meta_properties voxeldata with
    | .error e => .error e
    | .ok _ =>
      .ok { annot := annot, direction_vectors := direction_vectors,
            excitatory := excitatory_neuron_density,
            inhibitory := inhibitory_neuron_density }

/-- A Python dict built by a comprehension over a list of key-value pairs:
the keys keep their first-occurrence order and a repeated key keeps its last
value. -/
def dict_of_pairs (pairs : List (String × VoxelData)) :
    List (String × VoxelData) :=
  pairs.foldl
    (fun acc p =>
      if acc.any (fun q => q.1 == p.1) then
        acc.map (fun q => if q.1 == p.1 then (q.1, p.2) else q)
      else
        acc ++ [p])
    []

/-- The arguments `create_from_probability_map` hands to the allocation core
`create_from_map` (lines 286-297), as far as they are modelled: the
annotation and the raw arrays of the molecular-type density fields. -/
structure ProbabilityMapCoreCall where
  annot : VoxelData
  molecular_type_densities : List (String × List ℚ)
  deriving DecidableEq

/-- `create_from_probability_map` (lines 238-297) after loading: the
molecular-type densities dict is built from the `--marker` name-path pairs
(line 277-279), metadata consistency is checked over the annotation together
with the dict values (lines 281-283), and the fields are handed to the
allocation core.  Probability-map loading and its sanity check concern the
probability tables, not the volumetric fields, and are external
collaborators here. -/
def create_from_probability_map (annot : VoxelData)
    (marker : List (String × VoxelData)) :
    Except AtlasDensitiesError ProbabilityMapCoreCall :=
  let molecular_type_densities := dict_of_pairs marker
  let voxeldata := annot :: molecular_type_densities.map Prod.snd
  match assert_meta_properties voxeldata with
  | .error e => .error e
  | .ok _ =>
    .ok { annot := annot,
          molecular_type_densities :=
            molecular_type_densities.map (fun p => (p.1, p.2.raw)) }

/-- An nrrd file written by `create_from_composition`: its name and the
`VoxelData` saved into it. -/
structure OutputFile where
  name : String
  data : VoxelData
  deriving DecidableEq

/-- `create_from_composition` (lines 339-405) after loading: validates the
excitatory density, the taxonomy, the composition, the shape, voxel
dimensions and offset of annotation and excitatory density, and the
taxonomy-composition congruency, in source order; only then does it invoke
the allocation core and write one file per yielded (mtype, density) pair,
named with the `_densities.nrrd` suffix and built via
`annotation.with_data(density)`.  The core
`_create_from_composition` lives in
`densities/mtype_densities_from_composition.py`, outside the given sources,
so the pairs its generator yields are taken as a parameter `core`. -/
def create_from_composition (annot excitatory_neuron_density : VoxelData)
    (neuronal_mtype_taxonomy : MtypeTaxonomy)
    (neuronal_mtype_composition : MtypeComposition)
    (core : List (String × List ℚ)) :
    Except AtlasDensitiesError (List OutputFile) :=
  match validate_density excitatory_neuron_density with
  | .error e => .error e
  | .ok _ =>
  match validate_mtype_taxonomy neuronal_mtype_taxonomy with
  | .error e => .error e
  | .ok _ =>
  match validate_neuronal_mtype_composition neuronal_mtype_composition with
  | .error e => .error e
  | .ok _ =>
  match assert_properties [annot, excitatory_neuron_density] with
  | .error e => .error e
  | .ok _ =>
  match check_taxonomy_composition_congruency neuronal_mtype_taxonomy
      neuronal_mtype_composition with
  | .error e => .error e
  | .ok _ =>
  .ok (core.map (fun p =>
    { name := p.1 ++ "_densities.nrrd", data := annot.with_data p.2 }))

/-- All fields of the list agree on shape, voxel dimensions and offset: the
property `assert_meta_properties` and `assert_properties` enforce. -/
def SharedProperties (voxeldata : List VoxelData) : Prop :=
  ∀ v ∈ voxeldata, ∀ w ∈ voxeldata,
    v.shape = w.shape ∧ v.voxel_dimensions = w.voxel_dimensions ∧
      v.offset = w.offset

theorem assert_meta_properties_ok_iff (l : List VoxelData) :
    assert_meta_properties l = .ok () ↔ SharedProperties l := by
  cases l with
  | nil =>
    constructor
    · intro _ v hv
      exact absurd hv (List.not_mem_nil v)
    · intro _
      rfl
  | cons v rest =>
    show (if rest.all (fun w => decide (w.shape = v.shape ∧
        w.voxel_dimensions = v.voxel_dimensions ∧ w.offset = v.offset)) then
          (Except.ok () : Except AtlasDensitiesError Unit)
        else .error .metaPropertiesMismatch) = .ok () ↔ _
    constructor
    · intro h
      have hall : ∀ w ∈ rest, w.shape = v.shape ∧
          w.voxel_dimensions = v.voxel_dimensions ∧ w.offset = v.offset := by
        intro w hw
        by_contra hc
        have hfalse : rest.all (fun w => decide (w.shape = v.shape ∧
            w.voxel_dimensions = v.voxel_dimensions ∧ w.offset = v.offset)) = false := by
          rw [List.all_eq_false]
          exact ⟨w, hw, by simpa using hc⟩
        simp only [hfalse, Bool.false_eq_true, if_false] at h
        exact Except.noConfusion h
      intro x hx y hy
      have get : ∀ z, z = v ∨ z ∈ rest → z.shape = v.shape ∧
          z.voxel_dimensions = v.voxel_dimensions ∧ z.offset = v.offset := by
        intro z hz
        rcases hz with rfl | hz
        · exact ⟨rfl, rfl, rfl⟩
        · exact hall z hz
      obtain ⟨hx1, hx2, hx3⟩ := get x (List.mem_cons.mp hx)
      obtain ⟨hy1, hy2, hy3⟩ := get y (List.mem_cons.mp hy)
      exact ⟨hx1.trans hy1.symm, hx2.trans hy2.symm, hx3.trans hy3.symm⟩
    · intro h
      have hall : rest.all (fun w => decide (w.shape = v.shape ∧
          w.voxel_dimensions = v.voxel_dimensions ∧ w.offset = v.offset)) = true := by
        rw [List.all_eq_true]
        intro w hw
        have := h w (List.mem_cons_of_mem v hw) v (List.mem_cons_self v rest)
        simpa using this
      simp only [hall, if_true]

theorem assert_meta_properties_cases (l : List VoxelData) :
    assert_meta_properties l = .ok () ∨
      assert_meta_properties l = .error .metaPropertiesMismatch := by
  cases l with
  | nil => exact Or.inl rfl
  | cons v rest =>
    by_cases h : rest.all (fun w => decide (w.shape = v.shape ∧
        w.voxel_dimensions = v.voxel_dimensions ∧ w.offset = v.offset)) = true
    · left
      show (if rest.all (fun w => decide (w.shape = v.shape ∧
          w.voxel_dimensions = v.voxel_dimensions ∧ w.offset = v.offset)) then
            (Except.ok () : Except AtlasDensitiesError Unit)
          else .error .metaPropertiesMismatch) = .ok ()
      simp only [h, if_true]
    · right
      show (if rest.all (fun w => decide (w.shape = v.shape ∧
          w.voxel_dimensions = v.voxel_dimensions ∧ w.offset = v.offset)) then
            (Except.ok () : Except AtlasDensitiesError Unit)
          else .error .metaPropertiesMismatch) = .error .metaPropertiesMismatch
      rw [Bool.not_eq_true] at h
      simp only [h, Bool.false_eq_true, if_false]

/-- Concrete annotation field used to instantiate the theorems below. -/
def annot0 : VoxelData := ⟨[1, 0], [2, 1, 1], [25, 25, 25], [0, 0, 0]⟩

/-- Concrete direction-vector field with the metadata of `annot0`. -/
def dv0 : VoxelData := ⟨[1, 1], [2, 1, 1], [25, 25, 25], [0, 0, 0]⟩

/-- Concrete excitatory density field with the metadata of `annot0`. -/
def exc0 : VoxelData := ⟨[3, 4], [2, 1, 1], [25, 25, 25], [0, 0, 0]⟩

/-- Concrete all-zero density field. -/
def dzero0 : VoxelData := ⟨[0, 0], [2, 1, 1], [25, 25, 25], [0, 0, 0]⟩

/-- Concrete density field whose single value 1e-09 is strictly positive but
within the `np.allclose` absolute tolerance of zero. -/
def dtiny0 : VoxelData := ⟨[mkRat 1 1000000000], [1, 1, 1], [25, 25, 25], [0, 0, 0]⟩

/-- Concrete well-formed taxonomy. -/
def tax0 : MtypeTaxonomy :=
  ⟨["mtype", "mClass", "sClass"], ["EXC", "INH"], ["L2_IPC", "CHC"]⟩

/-- Concrete well-formed composition with the mtypes of `tax0`. -/
def comp0 : MtypeComposition :=
  ⟨[1, 2], ["layer_2", "layer_2"], ["L2_IPC", "CHC"]⟩

/-- Concrete allocation-core output: one (mtype, density) pair. -/
def core0 : List (String × List ℚ) := [("L2_IPC", [2, 0])]

/-- The files `create_from_composition` writes for `annot0` and `core0`. -/
def out0 : List OutputFile :=
  [⟨"L2_IPC_densities.nrrd", ⟨[2, 0], [2, 1, 1], [25, 25, 25], [0, 0, 0]⟩⟩]

/-- C1: the profile-based command is meant to proceed when at least one of
the excitatory or inhibitory total density fields is supplied, raising the
no-neuron-density error only when both are absent; but line 167 of the
source tests `inhibitory_neuron_density is None` twice, so a configuration
supplying only the excitatory total density (with the inhibitory key absent)
is rejected with the no-neuron-density error, although metadata agrees and
an excitatory density was provided. -/
theorem create_from_profile_excitatory_only_rejected :
    create_from_profile annot0 dv0
      { inhibitoryNeuronDensity := none, excitatoryNeuronDensity := some exc0 } =
      .error .noNeuronDensityFiles := by
  rfl

/-- C2: `_validate_mtype_taxonomy` raises an `AtlasDensitiesError` if and
only if the taxonomy column set is not exactly the three columns `mtype`,
`mClass`, `sClass`, or the set of values of the `sClass` column is not
exactly the two values `EXC`, `INH` (so a taxonomy whose `sClass` column
holds only `EXC`, or only `INH`, is rejected). -/
theorem validate_mtype_taxonomy_error_iff (t : MtypeTaxonomy) :
    (∃ e, validate_mtype_taxonomy t = .error e) ↔
      (t.columns.toFinset ≠ ({"mtype", "mClass", "sClass"} : Finset String) ∨
       t.sClass.toFinset ≠ ({"EXC", "INH"} : Finset String)) := by
  unfold validate_mtype_taxonomy
  split
  next h =>
    exact iff_of_true ⟨_, rfl⟩ (Or.inl (Ne.symm h))
  next h =>
    split
    next h2 =>
      exact iff_of_true ⟨_, rfl⟩ (Or.inr (Ne.symm h2))
    next h2 =>
      rw [not_ne_iff] at h h2
      refine iff_of_false (fun he => ?_)
        (not_or.mpr ⟨fun hc => hc h.symm, fun hc => hc h2.symm⟩)
      obtain ⟨e, he⟩ := he
      exact Except.noConfusion he

/-- C3: `_check_taxonomy_composition_congruency` raises an
`AtlasDensitiesError` if and only if the set of mtypes of the taxonomy
differs from the set of mtypes of the composition, and the error carries
exactly the mtypes present in only one of the two tables (those in the
taxonomy but not the composition, and those in the composition but not the
taxonomy). -/
theorem check_taxonomy_composition_congruency_spec (t : MtypeTaxonomy)
    (c : MtypeComposition) :
    ((∃ e, check_taxonomy_composition_congruency t c = .error e) ↔
      t.mtype.toFinset ≠ c.mtype.toFinset) ∧
    (∀ A B, check_taxonomy_composition_congruency t c =
        .error (.mtypeIncongruency A B) →
      A = t.mtype.toFinset \ c.mtype.toFinset ∧
      B = c.mtype.toFinset \ t.mtype.toFinset) := by
  unfold check_taxonomy_composition_congruency
  dsimp only
  split
  next h =>
    refine ⟨iff_of_true ⟨_, rfl⟩ h, ?_⟩
    intro A B hAB
    simp only [Except.error.injEq, AtlasDensitiesError.mtypeIncongruency.injEq] at hAB
    exact ⟨hAB.1.symm, hAB.2.symm⟩
  next h =>
    refine ⟨iff_of_false (fun he => ?_) (fun hne => hne (not_not.mp h)), ?_⟩
    · obtain ⟨e, he⟩ := he
      exact Except.noConfusion he
    · intro A B hAB
      exact Except.noConfusion hAB

theorem except_total {α : Type} (r : Except AtlasDensitiesError α) :
    (∃ out, r = .ok out) ∨ (∃ e, r = .error e) := by
  cases r with
  | ok out => exact Or.inl ⟨out, rfl⟩
  | error e => exact Or.inr ⟨e, rfl⟩

theorem create_from_profile_ok_inv (a dv : VoxelData) (cfg : ProfileConfig)
    (call : ProfileCoreCall) (h : create_from_profile a dv cfg = .ok call) :
    assert_meta_properties (profile_voxeldata a dv cfg) = .ok () := by
  unfold create_from_profile at h
  dsimp only at h
  split at h
  · exact Except.noConfusion h
  · cases hm : assert_meta_properties (profile_voxeldata a dv cfg) with
    | error e => simp [hm] at h
    | ok u =>
      cases u
      rfl

theorem create_from_probability_map_ok_inv (a : VoxelData)
    (marker : List (String × VoxelData)) (call : ProbabilityMapCoreCall)
    (h : create_from_probability_map a marker = .ok call) :
    assert_meta_properties (a :: (dict_of_pairs marker).map Prod.snd) = .ok () := by
  unfold create_from_probability_map at h
  dsimp only at h
  cases hm : assert_meta_properties (a :: (dict_of_pairs marker).map Prod.snd) with
  | error e => simp [hm] at h
  | ok u =>
    cases u
    rfl

theorem create_from_composition_ok_inv (a ed : VoxelData) (t : MtypeTaxonomy)
    (c : MtypeComposition) (core : List (String × List ℚ)) (out : List OutputFile)
    (h : create_from_composition a ed t c core = .ok out) :
    validate_density ed = .ok () ∧
    validate_mtype_taxonomy t = .ok () ∧
    validate_neuronal_mtype_composition c = .ok () ∧
    assert_properties [a, ed] = .ok () ∧
    check_taxonomy_composition_congruency t c = .ok () ∧
    out = core.map (fun p =>
      { name := p.1 ++ "_densities.nrrd", data := a.with_data p.2 }) := by
  unfold create_from_composition at h
  cases h1 : validate_density ed with
  | error e => simp [h1] at h
  | ok u =>
  cases u
  rw [h1] at h
  cases h2 : validate_mtype_taxonomy t with
  | error e => simp [h2] at h
  | ok u =>
  cases u
  rw [h2] at h
  cases h3 : validate_neuronal_mtype_composition c with
  | error e => simp [h3] at h
  | ok u =>
  cases u
  rw [h3] at h
  cases h4 : assert_properties [a, ed] with
  | error e => simp [h4] at h
  | ok u =>
  cases u
  rw [h4] at h
  cases h5 : check_taxonomy_composition_congruency t c with
  | error e => simp [h5] at h
  | ok u =>
  cases u
  rw [h5] at h
  simp only [Except.ok.injEq] at h
  exact ⟨rfl, rfl, rfl, rfl, rfl, h.symm⟩

/-- C4: in `create_from_composition` every validation check (density
non-zero and non-negative, taxonomy columns and sClass values, composition
non-negativity, field shape and offset consistency, taxonomy-composition
mtype congruency) is executed before any output density file is written:
whenever the command produces output files, all five validations returned
successfully, so if any of them raises, no output is produced for any
mtype. -/
theorem create_from_composition_validates_before_output (a ed : VoxelData)
    (t : MtypeTaxonomy) (c : MtypeComposition) (core : List (String × List ℚ))
    (out : List OutputFile)
    (h : create_from_composition a ed t c core = .ok out) :
    validate_density ed = .ok () ∧
    validate_mtype_taxonomy t = .ok () ∧
    validate_neuronal_mtype_composition c = .ok () ∧
    assert_properties [a, ed] = .ok () ∧
    check_taxonomy_composition_congruency t c = .ok () := by
  obtain ⟨h1, h2, h3, h4, h5, _⟩ := create_from_composition_ok_inv a ed t c core out h
  exact ⟨h1, h2, h3, h4, h5⟩

/-- Witness for C4: a concrete invocation of `create_from_composition` that
writes its output file, at which the five validations all pass. -/
theorem create_from_composition_validates_before_output_witness :
    validate_density exc0 = .ok () ∧
    validate_mtype_taxonomy tax0 = .ok () ∧
    validate_neuronal_mtype_composition comp0 = .ok () ∧
    assert_properties [annot0, exc0] = .ok () ∧
    check_taxonomy_composition_congruency tax0 comp0 = .ok () :=
  create_from_composition_validates_before_output annot0 exc0 tax0 comp0 core0
    out0 (by rfl)

/-- C5: each of the three commands checks that the volumetric fields it
jointly uses share identical shape, voxel dimensions and offset before
invoking the allocation core, and fails fatally on mismatch:
`create_from_profile` checks annotation, direction vectors and every
supplied neuron density field together; `create_from_probability_map`
checks annotation together with every marker density field;
`create_from_composition` checks annotation together with the excitatory
density field. -/
theorem commands_check_shared_properties_before_core :
    (∀ (a dv : VoxelData) (cfg : ProfileConfig) (call : ProfileCoreCall),
      create_from_profile a dv cfg = .ok call →
        SharedProperties (profile_voxeldata a dv cfg)) ∧
    (∀ (a dv : VoxelData) (cfg : ProfileConfig),
      ¬ SharedProperties (profile_voxeldata a dv cfg) →
        ∃ e, create_from_profile a dv cfg = .error e) ∧
    (∀ (a : VoxelData) (marker : List (String × VoxelData))
      (call : ProbabilityMapCoreCall),
      create_from_probability_map a marker = .ok call →
        SharedProperties (a :: (dict_of_pairs marker).map Prod.snd)) ∧
    (∀ (a : VoxelData) (marker : List (String × VoxelData)),
      ¬ SharedProperties (a :: (dict_of_pairs marker).map Prod.snd) →
        ∃ e, create_from_probability_map a marker = .error e) ∧
    (∀ (a ed : VoxelData) (t : MtypeTaxonomy) (c : MtypeComposition)
      (core : List (String × List ℚ)) (out : List OutputFile),
      create_from_composition a ed t c core = .ok out →
        SharedProperties [a, ed]) ∧
    (∀ (a ed : VoxelData) (t : MtypeTaxonomy) (c : MtypeComposition)
      (core : List (String × List ℚ)),
      ¬ SharedProperties [a, ed] →
        ∃ e, create_from_composition a ed t c core = .error e) := by
  refine ⟨?_, ?_, ?_, ?_, ?_, ?_⟩
  · intro a dv cfg call h
    exact (assert_meta_properties_ok_iff _).mp (create_from_profile_ok_inv a dv cfg call h)
  · intro a dv cfg hns
    rcases except_total (create_from_profile a dv cfg) with ⟨call, hc⟩ | he
    · exact absurd ((assert_meta_properties_ok_iff _).mp
        (create_from_profile_ok_inv a dv cfg call hc)) hns
    · exact he
  · intro a marker call h
    exact (assert_meta_properties_ok_iff _).mp
      (create_from_probability_map_ok_inv a marker call h)
  · intro a marker hns
    rcases except_total (create_from_probability_map a marker) with ⟨call, hc⟩ | he
    · exact absurd ((assert_meta_properties_ok_iff _).mp
        (create_from_probability_map_ok_inv a marker call hc)) hns
    · exact he
  · intro a ed t c core out h
    exact (assert_meta_properties_ok_iff _).mp
      (create_from_composition_ok_inv a ed t c core out h).2.2.2.1
  · intro a ed t c core hns
    rcases except_total (create_from_composition a ed t c core) with ⟨out, hc⟩ | he
    · exact absurd ((assert_meta_properties_ok_iff _).mp
        (create_from_composition_ok_inv a ed t c core out hc).2.2.2.1) hns
    · exact he

/-- C6: `_validate_density` raises the zeros-everywhere
`AtlasDensitiesError` whenever the density field is zero everywhere, so in
`create_from_composition` an all-zero excitatory total density field is a
fatal error, raised before any allocation or output. -/
theorem validate_density_all_zero_raises (d : VoxelData)
    (h : ∀ x ∈ d.raw, x = 0) :
    validate_density d = .error .zerosEverywhere ∧
    ∀ (a : VoxelData) (t : MtypeTaxonomy) (c : MtypeComposition)
      (core : List (String × List ℚ)),
      create_from_composition a d t c core = .error .zerosEverywhere := by
  have hz : allclose_zero d.raw = true := by
    rw [allclose_zero, List.all_eq_true]
    intro x hx
    show decide (rabs x ≤ atol) = true
    rw [h x hx]
    decide
  have h1 : validate_density d = .error .zerosEverywhere := by
    unfold validate_density
    simp [hz]
  refine ⟨h1, ?_⟩
  intro a t c core
  unfold create_from_composition
  simp [h1]

/-- Witness for C6: the all-zero field `dzero0` is rejected with the
zeros-everywhere error, also through `create_from_composition`. -/
theorem validate_density_all_zero_raises_witness :
    validate_density dzero0 = .error .zerosEverywhere ∧
    create_from_composition annot0 dzero0 tax0 comp0 core0 =
      .error .zerosEverywhere := by
  have h := validate_density_all_zero_raises dzero0 (by decide)
  exact ⟨h.1, h.2 annot0 tax0 comp0 core0⟩

/-- C7: negative values in a density input are fatal: `_validate_density`
raises an `AtlasDensitiesError` when any voxel value is strictly negative,
and `_validate_neuronal_mtype_composition` raises when any composition
density value is strictly negative. -/
theorem negative_density_values_fatal :
    (∀ d : VoxelData, (∃ x ∈ d.raw, x < 0) →
      ∃ e, validate_density d = .error e) ∧
    (∀ c : MtypeComposition, (∃ x ∈ c.density, x < 0) →
      validate_neuronal_mtype_composition c = .error .negativeComposition) := by
  constructor
  · intro d hd
    obtain ⟨x, hx, hlt⟩ := hd
    unfold validate_density
    by_cases hz : allclose_zero d.raw = true
    · simp only [hz, if_true]
      exact ⟨_, rfl⟩
    · have hneg : d.raw.any (fun x => decide (x < 0)) = true := by
        rw [List.any_eq_true]
        exact ⟨x, hx, by simpa using hlt⟩
      rw [Bool.not_eq_true] at hz
      simp only [hz, Bool.false_eq_true, if_false, hneg, if_true]
      exact ⟨_, rfl⟩
  · intro c hc
    obtain ⟨x, hx, hlt⟩ := hc
    have hneg : c.density.any (fun x => decide (x < 0)) = true := by
      rw [List.any_eq_true]
      exact ⟨x, hx, by simpa using hlt⟩
    unfold validate_neuronal_mtype_composition
    simp only [hneg, if_true]

/-- C8: `_check_config_sanity` raises an `AtlasDensitiesError`, carrying the
missing keys, if and only if at least one of `probabilityMapPath` and
`molecularTypeDensityPaths` is absent from the configuration key set; when
both are present it returns without error regardless of any other keys. -/
theorem check_config_sanity_spec (config_keys : Finset String) :
    ((∃ e, check_config_sanity config_keys = .error e) ↔
      ("probabilityMapPath" ∉ config_keys ∨
       "molecularTypeDensityPaths" ∉ config_keys)) ∧
    (∀ m, check_config_sanity config_keys = .error (.missingConfigKeys m) →
      m = ({"probabilityMapPath", "molecularTypeDensityPaths"} : Finset String)
        \ config_keys) ∧
    ("probabilityMapPath" ∈ config_keys ∧
        "molecularTypeDensityPaths" ∈ config_keys →
      check_config_sanity config_keys = .ok ()) := by
  have hsub : (({"probabilityMapPath", "molecularTypeDensityPaths"} : Finset String)
      ⊆ config_keys) ↔
      ("probabilityMapPath" ∈ config_keys ∧
        "molecularTypeDensityPaths" ∈ config_keys) := by
    rw [Finset.insert_subset_iff, Finset.singleton_subset_iff]
  unfold check_config_sanity
  dsimp only
  split
  next h =>
    have hnotsub : ¬ ({"probabilityMapPath", "molecularTypeDensityPaths"} :
        Finset String) ⊆ config_keys := by
      intro hs
      exact h (Finset.sdiff_eq_empty_iff_subset.mpr hs)
    refine ⟨iff_of_true ⟨_, rfl⟩ ?_, ?_, ?_⟩
    · by_contra hc
      push_neg at hc
      exact hnotsub (hsub.mpr hc)
    · intro m hm
      simp only [Except.error.injEq, AtlasDensitiesError.missingConfigKeys.injEq] at hm
      exact hm.symm
    · intro hin
      exact absurd (hsub.mpr hin) hnotsub
  next h =>
    rw [not_ne_iff] at h
    obtain ⟨h1, h2⟩ := hsub.mp (Finset.sdiff_eq_empty_iff_subset.mp h)
    refine ⟨iff_of_false ?_ ?_, ?_, fun _ => rfl⟩
    · rintro ⟨e, he⟩
      exact Except.noConfusion he
    · push_neg
      exact ⟨h1, h2⟩
    · intro m hm
      exact Except.noConfusion hm

/-- C9: for a density field all of whose values are strictly positive but at
most the `np.allclose` absolute tolerance of zero, `_validate_density` still
raises the zeros-everywhere error although no voxel value is exactly zero:
the all-zero rejection is tolerance-based, not an exact-equality test. -/
theorem validate_density_tolerance_based (d : VoxelData)
    (h : ∀ x ∈ d.raw, 0 < x ∧ x ≤ atol) :
    validate_density d = .error .zerosEverywhere := by
  have hz : allclose_zero d.raw = true := by
    rw [allclose_zero, List.all_eq_true]
    intro x hx
    obtain ⟨h1, h2⟩ := h x hx
    show decide (rabs x ≤ atol) = true
    rw [decide_eq_true_eq, rabs, if_neg (not_lt.mpr (le_of_lt h1))]
    exact h2
  unfold validate_density
  simp [hz]

/-- Witness for C9: the field `dtiny0`, whose single value 1e-09 is strictly
positive, is rejected with the zeros-everywhere error. -/
theorem validate_density_tolerance_based_witness :
    validate_density dtiny0 = .error .zerosEverywhere :=
  validate_density_tolerance_based dtiny0 (by decide)

/-- C10: every output file written by `create_from_composition` is built via
`annotation.with_data(density)` and named `mtype` followed by
`_densities.nrrd`, so every written field carries exactly the annotation
volume's voxel dimensions and offset metadata, one file per pair yielded by
the allocation generator. -/
theorem create_from_composition_output_files (a ed : VoxelData)
    (t : MtypeTaxonomy) (c : MtypeComposition) (core : List (String × List ℚ))
    (out : List OutputFile)
    (h : create_from_composition a ed t c core = .ok out) :
    out = core.map (fun p =>
      { name := p.1 ++ "_densities.nrrd", data := a.with_data p.2 }) ∧
    ∀ f ∈ out, f.data.voxel_dimensions = a.voxel_dimensions ∧
      f.data.offset = a.offset := by
  have hout := (create_from_composition_ok_inv a ed t c core out h).2.2.2.2.2
  refine ⟨hout, ?_⟩
  intro f hf
  rw [hout] at hf
  obtain ⟨p, hp, rfl⟩ := List.mem_map.mp hf
  exact ⟨rfl, rfl⟩

/-- Witness for C10: the concrete run writes exactly the file of `out0`,
which carries the voxel dimensions and offset of `annot0`. -/
theorem create_from_composition_output_files_witness :
    out0 = core0.map (fun p =>
      { name := p.1 ++ "_densities.nrrd", data := annot0.with_data p.2 }) ∧
    ∀ f ∈ out0, f.data.voxel_dimensions = annot0.voxel_dimensions ∧
      f.data.offset = annot0.offset :=
  create_from_composition_output_files annot0 exc0 tax0 comp0 core0 out0 (by rfl)

end MtypeDensities
